import Mathlib

/-!
Shallow embedding of the reverse-tunnel protocol client found in
`internal/reverse/main.go` (Go package `reverse`) of the circonus-agent
repository, together with theorems settling the specification claims
about the frame codec, the session loop and the connection supervisor.

Bytes are modelled as `Nat` values (each byte below 256; the `byte(...)`
truncations of the source appear as `% 256`).  A single network read is
modelled by an oracle pair: `chunk` is the byte sequence the underlying
`conn.Read` call delivers and `rerr` says whether that read also
reported a non-nil error.  Fallible operations return `Option`.
-/

namespace Reverse

/-- Constant `maxPayloadLen` of main.go line 38: max unsigned short minus 6. -/
def maxPayloadLen : Nat := 65529

/-- Constant `maxConnRetry` of main.go line 39. -/
def maxConnRetry : Nat := 10

/-- Constant `configRetryLimit` of main.go line 40. -/
def configRetryLimit : Nat := 5

/-- ASCII bytes of the command string CONNECT. -/
def CONNECT : List Nat := [67, 79, 78, 78, 69, 67, 84]

/-- ASCII bytes of the command string CLOSE. -/
def CLOSE : List Nat := [67, 76, 79, 83, 69]

/-- ASCII bytes of the command string RESET. -/
def RESET : List Nat := [82, 69, 83, 69, 84]

/-- ASCII bytes of the command string SHUTDOWN. -/
def SHUTDOWN : List Nat := [83, 72, 85, 84, 68, 79, 87, 78]

/-- ASCII bytes of the two-character empty JSON object the session
substitutes for metric data when the local fetch fails (main.go 239). -/
def emptyObjectBytes : List Nat := [123, 125]

/-- The frame header decoded from 6 wire bytes (main.go 27-31). -/
structure Header where
  channelID : Nat
  isCommand : Bool
  payloadLen : Nat
  deriving DecidableEq

/-- `binary.BigEndian.PutUint16` of the Go standard library: value `v`
 as two big-endian bytes. -/
def putUint16 (v : Nat) : List Nat := [(v >>> 8) % 256, v % 256]

/-- `binary.BigEndian.PutUint32`: value `v` as four big-endian bytes. -/
def putUint32 (v : Nat) : List Nat :=
  [(v >>> 24) % 256, (v >>> 16) % 256, (v >>> 8) % 256, v % 256]

/-- `binary.BigEndian.Uint16`: first two bytes of `b`, big endian. -/
def bigEndianUint16 (b : List Nat) : Nat := 256 * b.getD 0 0 + b.getD 1 0

/-- `binary.BigEndian.Uint32`: first four bytes of `b`, big endian. -/
def bigEndianUint32 (b : List Nat) : Nat :=
  16777216 * b.getD 0 0 + 65536 * b.getD 1 0 + 256 * b.getD 2 0 + b.getD 3 0

/-- `buildFrame` (main.go 296-309): 2 bytes of big-endian
`channelID & 0x7fff`, 4 bytes of big-endian `uint32(len(data))`, then the
payload bytes. -/
def buildFrame (channelID : Nat) (data : List Nat) : List Nat :=
  putUint16 (channelID &&& 0x7fff) ++ putUint32 (data.length % 4294967296) ++ data

/-- `readBytes` (main.go 382-394).  A buffer of `size` bytes is
allocated and a single `Read` on `io.LimitReader(conn, size)` fills its
first `n` bytes; the whole buffer is returned unless `n == 0` with a
non-nil error.  When `size = 0` the limit reader returns `(0, io.EOF)`
deterministically, so the error branch is taken.  `chunk`/`rerr` are the
oracle for the single underlying read. -/
def readBytes (size : Nat) (chunk : List Nat) (rerr : Bool) : Option (List Nat) :=
  let n := if size = 0 then 0 else min chunk.length size
  let readErr := if size = 0 then true else rerr
  if n = 0 ∧ readErr then none
  else some (chunk.take n ++ List.replicate (size - n) 0)

/-- `readMessage` (main.go 370-379): delegate to `readBytes`, then fail
when the returned buffer's length differs from `size`. -/
def readMessage (size : Nat) (chunk : List Nat) (rerr : Bool) : Option (List Nat) :=
  match readBytes size chunk rerr with
  | none => none
  | some data => if data.length ≠ size then none else some data

/-- Header field extraction of `readHeader` (main.go 354-357) applied to
the 6 header bytes. -/
def decodeHeaderBytes (data : List Nat) : Header :=
  let encodedChannelID := bigEndianUint16 data
  { channelID := encodedChannelID &&& 0x7fff
    isCommand := decide (0 < encodedChannelID &&& 0x8000)
    payloadLen := bigEndianUint32 (data.drop 2) }

/-- `readHeader` (main.go 347-367): read 6 bytes via `readMessage`, then
decode the three header fields. -/
def readHeader (chunk : List Nat) (rerr : Bool) : Option Header :=
  match readMessage 6 chunk rerr with
  | none => none
  | some data => some (decodeHeaderBytes data)

/-- One frame handed to `conn.Write`: the channel id and payload passed
to `buildFrame`. -/
structure Frame where
  channelID : Nat
  payload : List Nat
  deriving DecidableEq

/-- `sendMetricData` (main.go 272-288) on the success path of every
write: the chunk taken at `offset` is `min(len(data)-offset, maxPayloadLen)`
bytes, but `offset` then advances by `sentBytes`, the value returned by
`conn.Write` for the whole frame, i.e. the chunk length plus the 6 header
bytes.  The recursion is phrased on the suffix `data[offset:]`. -/
def sendMetricData (channelID : Nat) (data : List Nat) : List Frame :=
  if h : data = [] then []
  else
    let buff := data.take maxPayloadLen
    { channelID := channelID, payload := buff } ::
      sendMetricData channelID (data.drop (buff.length + 6))
termination_by data.length
decreasing_by
  simp only [List.length_drop]
  have hpos : 0 < data.length := List.length_pos.mpr h
  omega

/-- Outcome of one iteration of the session loop `reverse`
(main.go 180-268): either `return` (the session ends and the supervisor
reconnects) or continue with updated `cmd`/`arg` accumulators. -/
inductive IterOutcome where
  | exit : IterOutcome
  | next (cmd arg : List Nat) : IterOutcome
  deriving DecidableEq

/-- Observable effects of one session-loop iteration: the outcome, whether
the payload `readMessage` was invoked, the request bytes handed to
`fetchMetricData` (if the CONNECT dispatch fired), and the frames written
to the broker. -/
structure IterResult where
  outcome : IterOutcome
  payloadRead : Bool
  fetchReq : Option (List Nat)
  sent : List Frame
  deriving DecidableEq

/-- One iteration of the session loop `reverse` (main.go 180-268), from
the header read to the command dispatch.  `hdrRes` is the result of
`readHeader` (none on error), `chunk`/`rerr` the oracle for the payload
read, `fetchRes` the result of `fetchMetricData` (none on dial or read
failure), and `writeOk` whether the writes of `sendMetricData` succeed.
On a failed write the bytes actually put on the wire are a prefix of the
frames and are not modelled further. -/
def reverseIteration (cmd arg : List Nat) (hdrRes : Option Header)
    (chunk : List Nat) (rerr : Bool) (fetchRes : Option (List Nat))
    (writeOk : Bool) : IterResult :=
  match hdrRes with
  | none => ⟨.exit, false, none, []⟩
  | some hdr =>
    if maxPayloadLen < hdr.payloadLen then ⟨.exit, false, none, []⟩
    else
      match readMessage hdr.payloadLen chunk rerr with
      | none => ⟨.exit, true, none, []⟩
      | some msg =>
        let cmd1 := if hdr.isCommand then msg else cmd
        let arg1 := if hdr.isCommand then arg else msg
        if cmd1 = CONNECT then
          if 0 < arg1.length then
            let data := match fetchRes with
              | some d => d
              | none => emptyObjectBytes
            if writeOk then
              ⟨.next [] [], true, some arg1, sendMetricData hdr.channelID data⟩
            else ⟨.exit, true, some arg1, []⟩
          else ⟨.next cmd1 arg1, true, none, []⟩
        else if cmd1 = CLOSE ∨ cmd1 = RESET ∨ cmd1 = SHUTDOWN then
          ⟨.next [] arg1, true, none, []⟩
        else ⟨.next cmd1 arg1, true, none, []⟩

/-- The supervisor backoff table of `Start` (main.go 61-69), in seconds. -/
def backoffs : List Nat := [2, 4, 6, 8, 16, 32, 60]

/-- `maxAttempts := len(backoffs) - 1` (main.go 70). -/
def maxAttempts : Nat := backoffs.length - 1

/-- The delay picked on a consecutive failure with the given attempt
counter: `backoffs[min(attempt-1, maxAttempts)]` (main.go 131). -/
def backoffDelay (attempt : Nat) : Nat :=
  backoffs.getD (min (attempt - 1) maxAttempts) 0

/-- Observable supervisor events inside one iteration of the retry loop
of `Start` (main.go 95-139). -/
inductive Ev where
  | reconfig : Ev
  | dial : Ev
  | session : Ev
  | sleep (seconds : Nat) : Ev
  deriving DecidableEq

/-- One iteration of the supervisor loop of `Start` (main.go 96-138) for
an attempt counter `attempt` and connect outcome `connOk`.  Returns the
events of the iteration in order and the attempt counter for the next
iteration (`none` when the goroutine returns with a terminal error).
The `reverseURL == nil` disjunct of the reconfig test never holds here:
the URL is produced by the successful initial `configure` call and by
every later reconfiguration. -/
def supIter (attempt : Nat) (connOk : Bool) : List Ev × Option Nat :=
  let pre := if attempt % configRetryLimit = 0 then [Ev.reconfig] else []
  if connOk then
    (pre ++ [Ev.dial, Ev.session, Ev.sleep (backoffDelay 1)], some 2)
  else if maxConnRetry ≤ attempt then
    (pre ++ [Ev.dial], none)
  else
    (pre ++ [Ev.dial, Ev.sleep (backoffDelay attempt)], some (attempt + 1))

/-- Event trace of `n` supervisor iterations in which every connection
attempt fails, starting from the given attempt counter. -/
def supTraceFail : Nat → Nat → List Ev
  | 0, _ => []
  | n + 1, attempt =>
    match supIter attempt false with
    | (evs, none) => evs
    | (evs, some a2) => evs ++ supTraceFail n a2

end Reverse

namespace Reverse

/-- Masking with 0x7fff keeps the value below 32768, for any input. -/
theorem and_mask15_lt (c : Nat) : c &&& 0x7fff < 32768 :=
  lt_of_le_of_lt Nat.and_le_right (by norm_num)

/-- Masking with 0x7fff is the identity on values below 32768. -/
theorem and_mask15_of_lt {c : Nat} (h : c < 32768) : c &&& 0x7fff = c := by
  have h2 := Nat.and_pow_two_sub_one_of_lt_two_pow (show c < 2 ^ 15 by omega)
  simpa using h2

/-- Values below 32768 have bit 15 clear. -/
theorem and_bit15_eq_zero {m : Nat} (h : m < 32768) : m &&& 0x8000 = 0 := by
  have h2 := Nat.and_two_pow m 15
  rw [Nat.testBit_lt_two_pow (show m < 2 ^ 15 by omega)] at h2
  simpa using h2

/-- When the connection yields at least `size` bytes in the single read,
`readMessage` returns the first `size` bytes. -/
theorem readMessage_full (size : Nat) (chunk : List Nat) (rerr : Bool)
    (h0 : size ≠ 0) (h : size ≤ chunk.length) :
    readMessage size chunk rerr = some (chunk.take size) := by
  have hmin : min chunk.length size = size := Nat.min_eq_right h
  simp [readMessage, readBytes, h0, hmin, List.length_take, Nat.min_eq_left h]

/-- Decoding the 6 bytes produced by the two big-endian encoders recovers
the encoded values. -/
theorem decodeHeaderBytes_encoded (m L : Nat) (hm : m < 65536) (hL : L < 4294967296) :
    decodeHeaderBytes (putUint16 m ++ putUint32 L) =
      { channelID := m &&& 0x7fff, isCommand := decide (0 < m &&& 0x8000),
        payloadLen := L } := by
  have h16 : bigEndianUint16 (putUint16 m ++ putUint32 L) = m := by
    show 256 * ((m >>> 8) % 256) + m % 256 = m
    simp only [Nat.shiftRight_eq_div_pow]
    omega
  have h32 : bigEndianUint32 ((putUint16 m ++ putUint32 L).drop 2) = L := by
    show 16777216 * ((L >>> 24) % 256) + 65536 * ((L >>> 16) % 256)
        + 256 * ((L >>> 8) % 256) + L % 256 = L
    simp only [Nat.shiftRight_eq_div_pow]
    omega
  simp only [decodeHeaderBytes, h16, h32]

end Reverse

namespace Reverse

/-- Auxiliary: `sendMetricData` on an empty body writes no frame. -/
theorem sendMetricData_nil (ch : Nat) : sendMetricData ch [] = [] := by
  simp [sendMetricData]

/-- Auxiliary: a non-empty body of at most `maxPayloadLen` bytes is sent
as a single frame carrying the whole body. -/
theorem sendMetricData_single (ch : Nat) {data : List Nat} (h1 : data ≠ [])
    (h2 : data.length ≤ maxPayloadLen) :
    sendMetricData ch data = [{ channelID := ch, payload := data }] := by
  rw [sendMetricData]
  rw [dif_neg h1]
  simp only [List.take_of_length_le h2]
  rw [List.drop_eq_nil_of_le (by omega)]
  rw [sendMetricData_nil]

/-- Claim C1 (evaluation at the failing input): a response body of 65530
bytes is sent as a single frame carrying only the first 65529 bytes,
because the loop advances `offset` by the value `conn.Write` returned for
the whole frame, payload plus 6 header bytes.  The payloads therefore do
not concatenate to the body, and the frame count is not
`ceil(65530 / 65529) = 2` as the claim requires. -/
theorem sendMetricData_drops_tail_at_65530 :
    sendMetricData 3 (List.replicate 65530 0) =
      [{ channelID := 3, payload := List.replicate 65529 0 }] ∧
    ((sendMetricData 3 (List.replicate 65530 0)).map Frame.payload).flatten ≠
      List.replicate 65530 (0 : Nat) ∧
    (sendMetricData 3 (List.replicate 65530 0)).length ≠
      (65530 + maxPayloadLen - 1) / maxPayloadLen := by
  have hne : List.replicate 65530 (0:Nat) ≠ [] :=
    List.length_pos.mp (by rw [List.length_replicate]; norm_num)
  have h1 : sendMetricData 3 (List.replicate 65530 0) =
      [{ channelID := 3, payload := List.replicate 65529 0 }] := by
    rw [sendMetricData]
    rw [dif_neg hne]
    simp only [List.take_replicate, List.length_replicate, List.drop_replicate]
    have hmin : maxPayloadLen ⊓ 65530 = 65529 := by norm_num [maxPayloadLen]
    rw [hmin]
    norm_num
    rw [sendMetricData_nil]
  refine ⟨h1, ?_, ?_⟩
  · rw [h1]
    intro hcontra
    have hlen := congrArg List.length hcontra
    simp only [List.map_cons, List.map_nil, List.flatten_cons, List.flatten_nil,
      List.append_nil, List.length_replicate] at hlen
    omega
  · rw [h1]
    norm_num [maxPayloadLen]

/-- Claim C2 (evaluation at the failing input): when the single
underlying read delivers only 3 of the 6 requested bytes and no error,
`readMessage` succeeds and returns a 6-byte buffer whose final 3 zero
bytes were never read from the connection.  The undersized-read check of
the source compares the length of the pre-allocated buffer, which always
equals `size`, so the short read is not detected and no error carrying
the 3 read bytes is produced. -/
theorem readMessage_succeeds_on_short_read :
    readMessage 6 [1, 2, 3] false = some [1, 2, 3, 0, 0, 0] ∧
    ([1, 2, 3] : List Nat).length < 6 := by decide

/-- Claim C3: for every channel id below 32768 and payload of at most
65529 bytes, decoding the header of the encoded frame recovers the
channel id, a clear command bit and the payload length, the frame bytes
after the 6-byte header equal the payload, and for every channel id
input whatsoever the high bit of the leading 16-bit word of an encoded
frame is clear. -/
theorem buildFrame_readHeader_roundtrip :
    (∀ c payload, c < 32768 → payload.length ≤ maxPayloadLen →
      readHeader (buildFrame c payload) false =
        some { channelID := c, isCommand := false, payloadLen := payload.length } ∧
      (buildFrame c payload).drop 6 = payload) ∧
    (∀ c data, bigEndianUint16 (buildFrame c data) &&& 0x8000 = 0) := by
  constructor
  · intro c payload hc hlen
    have hm : c &&& 0x7fff = c := and_mask15_of_lt hc
    have hL : payload.length % 4294967296 = payload.length := by
      apply Nat.mod_eq_of_lt
      have : maxPayloadLen = 65529 := rfl
      omega
    have hlen6 : (6:Nat) ≤ (buildFrame c payload).length := by
      simp [buildFrame, putUint16, putUint32]
    refine ⟨?_, rfl⟩
    have h1 : readMessage 6 (buildFrame c payload) false =
        some ((buildFrame c payload).take 6) :=
      readMessage_full 6 _ false (by decide) hlen6
    have htake : (buildFrame c payload).take 6 =
        putUint16 (c &&& 0x7fff) ++ putUint32 (payload.length % 4294967296) := rfl
    simp only [readHeader, h1, htake]
    rw [decodeHeaderBytes_encoded (c &&& 0x7fff) (payload.length % 4294967296)
      (lt_of_lt_of_le (and_mask15_lt c) (by norm_num)) (by omega)]
    rw [and_mask15_of_lt (and_mask15_lt c)]
    rw [and_bit15_eq_zero (and_mask15_lt c)]
    rw [hm, hL]
    rfl
  · intro c data
    have h16 : bigEndianUint16 (buildFrame c data) = c &&& 0x7fff := by
      show 256 * (((c &&& 0x7fff) >>> 8) % 256) + (c &&& 0x7fff) % 256 = c &&& 0x7fff
      have h2 := and_mask15_lt c
      simp only [Nat.shiftRight_eq_div_pow]
      omega
    rw [h16]
    exact and_bit15_eq_zero (and_mask15_lt c)

/-- Claim C3 witness: the round trip at channel 7 with payload
`[9, 8, 7]`, and the clear high bit at the out-of-range channel 40000. -/
theorem buildFrame_readHeader_roundtrip_witness :
    (7:Nat) < 32768 ∧ ([9, 8, 7] : List Nat).length ≤ maxPayloadLen ∧
    readHeader (buildFrame 7 [9, 8, 7]) false = some ⟨7, false, 3⟩ ∧
    (buildFrame 7 [9, 8, 7]).drop 6 = [9, 8, 7] ∧
    bigEndianUint16 (buildFrame 40000 [1]) &&& 0x8000 = 0 :=
  ⟨by decide, by decide,
    (buildFrame_readHeader_roundtrip.1 7 [9, 8, 7] (by decide) (by decide)).1,
    (buildFrame_readHeader_roundtrip.1 7 [9, 8, 7] (by decide) (by decide)).2,
    buildFrame_readHeader_roundtrip.2 40000 [1]⟩

end Reverse

namespace Reverse

/-- Claim C4: when the CONNECT dispatch fires and the local fetcher
fails (`fetchRes = none`), the session loop does not exit: it sends on
the originating channel exactly one frame whose payload is the two-byte
empty JSON object, clears both accumulators, and continues with the
next iteration (the reply writes themselves succeeding). -/
theorem fetch_failure_benign_reply (cmd arg : List Nat) (hdr : Header)
    (chunk : List Nat) (rerr : Bool) (msg : List Nat)
    (hlen : hdr.payloadLen ≤ maxPayloadLen)
    (hmsg : readMessage hdr.payloadLen chunk rerr = some msg)
    (hcmd : (if hdr.isCommand then msg else cmd) = CONNECT)
    (harg : (if hdr.isCommand then arg else msg) ≠ []) :
    reverseIteration cmd arg (some hdr) chunk rerr none true =
      ⟨.next [] [], true, some (if hdr.isCommand then arg else msg),
        [{ channelID := hdr.channelID, payload := emptyObjectBytes }]⟩ := by
  have hnot : ¬ maxPayloadLen < hdr.payloadLen := Nat.not_lt.mpr hlen
  have hpos : 0 < (if hdr.isCommand then arg else msg).length :=
    List.length_pos.mpr harg
  have hsend : sendMetricData hdr.channelID emptyObjectBytes =
      [{ channelID := hdr.channelID, payload := emptyObjectBytes }] :=
    sendMetricData_single hdr.channelID (show emptyObjectBytes ≠ [] by decide)
      (show emptyObjectBytes.length ≤ maxPayloadLen by decide)
  simp only [reverseIteration, if_neg hnot, hmsg, hcmd, if_pos hpos, if_pos rfl, hsend]
  simp

/-- Claim C4 witness: an argument frame completing a CONNECT on channel
11 while the local fetcher fails. -/
theorem fetch_failure_benign_reply_witness :
    (3:Nat) ≤ maxPayloadLen ∧
    readMessage 3 [71, 69, 84] false = some [71, 69, 84] ∧
    reverseIteration CONNECT [] (some ⟨11, false, 3⟩) [71, 69, 84] false none true =
      ⟨.next [] [], true, some [71, 69, 84],
        [{ channelID := 11, payload := emptyObjectBytes }]⟩ :=
  ⟨by decide, by decide, by
    have h := fetch_failure_benign_reply CONNECT [] ⟨11, false, 3⟩ [71, 69, 84]
      false [71, 69, 84] (by decide) (by decide) (by decide) (by decide)
    simpa using h⟩

/-- Claim C5: a decoded header declaring a payload length above
`maxPayloadLen` makes the session loop exit at once, without invoking
the payload read, without dispatching a fetch and without writing a
frame. -/
theorem oversize_frame_exits_before_read (cmd arg : List Nat) (hdr : Header)
    (chunk : List Nat) (rerr : Bool) (fetchRes : Option (List Nat)) (writeOk : Bool)
    (h : maxPayloadLen < hdr.payloadLen) :
    reverseIteration cmd arg (some hdr) chunk rerr fetchRes writeOk =
      ⟨.exit, false, none, []⟩ := by
  simp only [reverseIteration, if_pos h]

/-- Claim C5 witness: a header declaring 65530 payload bytes. -/
theorem oversize_frame_exits_before_read_witness :
    maxPayloadLen < 65530 ∧
    reverseIteration [] [] (some ⟨5, false, 65530⟩) [] false none true =
      ⟨.exit, false, none, []⟩ :=
  ⟨by decide,
    oversize_frame_exits_before_read [] [] ⟨5, false, 65530⟩ [] false none true (by decide)⟩

/-- Claim C8 counterexample: the broker sends the unknown command PING
(bytes 80 73 78 71) and then the argument x (byte 120).  No frame goes
out and the session does not exit, but contrary to the claim the
accumulators are not cleared after the argument frame: the command
accumulator still holds PING and the argument accumulator holds x. -/
theorem unknown_command_accumulators_cex :
    reverseIteration [] [] (some ⟨7, true, 4⟩) [80, 73, 78, 71] false none true =
      ⟨.next [80, 73, 78, 71] [], true, none, []⟩ ∧
    reverseIteration [80, 73, 78, 71] [] (some ⟨7, false, 1⟩) [120] false none true =
      ⟨.next [80, 73, 78, 71] [120], true, none, []⟩ ∧
    IterOutcome.next [80, 73, 78, 71] [120] ≠ IterOutcome.next [] [] := by decide

/-- Claim C8 as amended: on an unknown command frame followed by an
argument frame the session sends no outbound frame, dispatches no fetch
and does not exit, and after the argument frame the accumulators are
not cleared: the command accumulator keeps the unknown command bytes
and the argument accumulator keeps the argument bytes. -/
theorem unknown_command_no_output_no_clear (h1 h2 : Header) (c1 c2 : List Nat)
    (r1 r2 : Bool) (p a : List Nat) (f1 f2 : Option (List Nat)) (w1 w2 : Bool)
    (hc1 : h1.isCommand = true) (hc2 : h2.isCommand = false)
    (hl1 : h1.payloadLen ≤ maxPayloadLen) (hl2 : h2.payloadLen ≤ maxPayloadLen)
    (hm1 : readMessage h1.payloadLen c1 r1 = some p)
    (hm2 : readMessage h2.payloadLen c2 r2 = some a)
    (hp1 : p ≠ CONNECT) (hp2 : p ≠ CLOSE) (hp3 : p ≠ RESET) (hp4 : p ≠ SHUTDOWN) :
    reverseIteration [] [] (some h1) c1 r1 f1 w1 = ⟨.next p [], true, none, []⟩ ∧
    reverseIteration p [] (some h2) c2 r2 f2 w2 = ⟨.next p a, true, none, []⟩ := by
  constructor
  · simp [reverseIteration, Nat.not_lt.mpr hl1, hm1, hc1, hp1, hp2, hp3, hp4]
  · simp [reverseIteration, Nat.not_lt.mpr hl2, hm2, hc2, hp1, hp2, hp3, hp4]

/-- Claim C8 witness: the PING scenario instantiating the amended
theorem. -/
theorem unknown_command_no_output_no_clear_witness :
    readMessage 4 [80, 73, 78, 71] false = some [80, 73, 78, 71] ∧
    readMessage 1 [120] false = some [120] ∧
    reverseIteration [] [] (some ⟨9, true, 4⟩) [80, 73, 78, 71] false none true =
      ⟨.next [80, 73, 78, 71] [], true, none, []⟩ ∧
    reverseIteration [80, 73, 78, 71] [] (some ⟨9, false, 1⟩) [120] false none true =
      ⟨.next [80, 73, 78, 71] [120], true, none, []⟩ :=
  ⟨by decide, by decide,
    (unknown_command_no_output_no_clear ⟨9, true, 4⟩ ⟨9, false, 1⟩
      [80, 73, 78, 71] [120] false false [80, 73, 78, 71] [120] none none true true
      (by decide) (by decide) (by decide) (by decide) (by decide) (by decide)
      (by decide) (by decide) (by decide) (by decide)).1,
    (unknown_command_no_output_no_clear ⟨9, true, 4⟩ ⟨9, false, 1⟩
      [80, 73, 78, 71] [120] false false [80, 73, 78, 71] [120] none none true true
      (by decide) (by decide) (by decide) (by decide) (by decide) (by decide)
      (by decide) (by decide) (by decide) (by decide)).2⟩

/-- Claim C9: a CONNECT command frame arriving while the argument
accumulator is non-empty dispatches the local fetch in that same
iteration, passing the stale argument as the request bytes. -/
theorem stale_arg_dispatched_immediately (cmd arg : List Nat) (hdr : Header)
    (chunk : List Nat) (rerr : Bool) (fetchRes : Option (List Nat)) (writeOk : Bool)
    (hc : hdr.isCommand = true) (hlen : hdr.payloadLen ≤ maxPayloadLen)
    (hmsg : readMessage hdr.payloadLen chunk rerr = some CONNECT)
    (harg : arg ≠ []) :
    (reverseIteration cmd arg (some hdr) chunk rerr fetchRes writeOk).fetchReq =
      some arg := by
  have hnot : ¬ maxPayloadLen < hdr.payloadLen := Nat.not_lt.mpr hlen
  have hpos : 0 < arg.length := List.length_pos.mpr harg
  cases fetchRes <;> cases writeOk <;>
    simp [reverseIteration, hnot, hmsg, hc, hpos]

/-- Claim C9 witness: a CONNECT command frame on channel 4 with the
stale argument `[9, 9]` left in the accumulator. -/
theorem stale_arg_dispatched_immediately_witness :
    readMessage 7 CONNECT false = some CONNECT ∧ ([9, 9] : List Nat) ≠ [] ∧
    (reverseIteration [] [9, 9] (some ⟨4, true, 7⟩) CONNECT false (some [5]) true).fetchReq =
      some [9, 9] :=
  ⟨by decide, by decide,
    stale_arg_dispatched_immediately [] [9, 9] ⟨4, true, 7⟩ CONNECT false (some [5]) true
      (by decide) (by decide) (by decide) (by decide)⟩

/-- Claim C10: a frame header declaring a zero-byte payload makes the
payload read fail — `io.LimitReader` with a zero budget reports EOF at
once — so the session loop exits, although the wire format admits empty
payloads. -/
theorem zero_length_payload_exits (cmd arg : List Nat) (hdr : Header)
    (chunk : List Nat) (rerr : Bool) (fetchRes : Option (List Nat)) (writeOk : Bool)
    (h : hdr.payloadLen = 0) :
    reverseIteration cmd arg (some hdr) chunk rerr fetchRes writeOk =
      ⟨.exit, true, none, []⟩ := by
  simp [reverseIteration, h, readMessage, readBytes, maxPayloadLen]

/-- Claim C10 witness: a command header with payload length zero. -/
theorem zero_length_payload_exits_witness :
    (⟨5, true, 0⟩ : Header).payloadLen = 0 ∧
    reverseIteration [] [] (some ⟨5, true, 0⟩) [] false none true =
      ⟨.exit, true, none, []⟩ :=
  ⟨rfl, zero_length_payload_exits [] [] ⟨5, true, 0⟩ [] false none true rfl⟩

end Reverse

namespace Reverse

/-- Claim C6: the supervisor re-invokes the configurator on every
iteration whose attempt counter is a multiple of 5, before that
iteration's dial; in a run of consecutive connection failures starting
at attempt 1, the trace of the first six iterations shows the
reconfiguration happening at the fifth attempt, so after five
consecutive failures the configurator has been re-invoked before the
next dial attempt. -/
theorem reconfig_on_fifth_attempt :
    (∀ attempt connOk, attempt % configRetryLimit = 0 →
      ((supIter attempt connOk).1.head? = some Ev.reconfig)) ∧
    supTraceFail 6 1 = [Ev.dial, Ev.sleep 2, Ev.dial, Ev.sleep 4, Ev.dial, Ev.sleep 6,
      Ev.dial, Ev.sleep 8, Ev.reconfig, Ev.dial, Ev.sleep 16, Ev.dial, Ev.sleep 32] := by
  constructor
  · intro a ok h
    cases ok <;> by_cases h10 : maxConnRetry ≤ a <;> simp [supIter, h, h10]
  · decide

/-- Claim C6 witness: at attempt 10 the reconfiguration precedes the
dial. -/
theorem reconfig_on_fifth_attempt_witness :
    (10:Nat) % configRetryLimit = 0 ∧
    ((supIter 10 false).1.head? = some Ev.reconfig) :=
  ⟨by decide, reconfig_on_fifth_attempt.1 10 false (by decide)⟩

/-- Claim C7: the backoff delays picked on consecutive failures with
attempt counters 1 through 7 are 2, 4, 6, 8, 16, 32 and 60 seconds, the
delay for every later attempt stays 60 seconds (the index is capped at
the last table entry), and every non-terminal failing iteration of the
supervisor sleeps for exactly that delay. -/
theorem backoff_schedule_capped_at_sixty :
    ((List.range 7).map fun k => backoffDelay (k + 1)) = [2, 4, 6, 8, 16, 32, 60] ∧
    (∀ attempt, 7 ≤ attempt → backoffDelay attempt = 60) ∧
    (∀ attempt, attempt < maxConnRetry →
      Ev.sleep (backoffDelay attempt) ∈ (supIter attempt false).1) := by
  refine ⟨by decide, ?_, ?_⟩
  · intro a h
    have hmin : min (a - 1) maxAttempts = 6 := by
      have : maxAttempts = 6 := rfl
      omega
    simp [backoffDelay, hmin, backoffs]
  · intro a h
    by_cases h5 : a % configRetryLimit = 0 <;>
      simp [supIter, Nat.not_le.mpr h, h5]

/-- Claim C7 witness: the ninth consecutive failure still sleeps 60
seconds, and its iteration carries that sleep event. -/
theorem backoff_schedule_capped_at_sixty_witness :
    (7:Nat) ≤ 9 ∧ backoffDelay 9 = 60 ∧ (9:Nat) < maxConnRetry ∧
    Ev.sleep (backoffDelay 9) ∈ (supIter 9 false).1 :=
  ⟨by decide, backoff_schedule_capped_at_sixty.2.1 9 (by decide), by decide,
    backoff_schedule_capped_at_sixty.2.2 9 (by decide)⟩

end Reverse
